import Mathlib

/-!
Verification of the probe-result normalization and caching pipeline of the
metamesh ffmpeg plugin (src/src/plugin.ts).

The shallow embedding below translates the `process` function and the
`applyCachedMetadata` helper of plugin.ts into Lean.  JavaScript dynamic
values that can appear inside a stream record are modelled by `JVal`
(string / number / boolean); JavaScript numbers are modelled by `Int`
(every numeric field the pipeline touches is only ever stringified,
compared with `===`, or tested for truthiness, so integer inputs are
representative).  JavaScript truthiness on strings is `s ≠ ""`, and on
numbers `v ≠ 0`.

The collaborators that plugin.ts imports from files not present under
src/ (cache.ts readJson/writeJson, meta-core-client.ts mergeMetadata) are
modelled as an explicit environment `Env`; the parts of their behaviour
the claims depend on are modelled from the spec and marked as such in
their doc comments.
-/

namespace FFmpegPlugin

/-- A JavaScript value stored in a stream record (plugin.ts line 208:
`Record<string, string | number | boolean>`). -/
inductive JVal where
  | s (v : String)
  | n (v : Int)
  | b (v : Bool)
deriving DecidableEq, Repr

/-- A raw ffprobe field that TypeScript types as `number` but that the code
defensively compares against the sentinel text `N/A` (plugin.ts lines
236-241), so it may in fact carry either a number or a string. -/
inductive RawNum where
  | num (v : Int)
  | str (v : String)
deriving DecidableEq, Repr

/-- JavaScript truthiness of a possibly-string numeric field. -/
def RawNum.truthy : RawNum → Bool
  | .num v => decide (v ≠ 0)
  | .str v => decide (v ≠ "")

/-- The strict comparison `=== 'N/A'` of plugin.ts lines 236/239: it can
only hold for the string value. -/
def RawNum.isNA : RawNum → Bool
  | .num _ => false
  | .str v => decide (v = "N/A")

/-- The raw value as it is assigned into the stream record. -/
def RawNum.toJVal : RawNum → JVal
  | .num v => .n v
  | .str v => .s v

/-- Truthiness of an optional string (JavaScript `if (x)` on a string
field that may be undefined). -/
def optTruthy (o : Option String) : Bool :=
  match o with
  | some v => decide (v ≠ "")
  | none => false

/-- The `disposition` block of an ffprobe stream (plugin.ts lines 71-74). -/
structure Disposition where
  forced : Option Int := none
  default : Option Int := none
deriving DecidableEq, Repr

/-- The `tags` block of an ffprobe stream (plugin.ts lines 75-79). -/
structure Tags where
  language : Option String := none
  title : Option String := none
  rotate : Option String := none
deriving DecidableEq, Repr

/-- One raw ffprobe stream record (plugin.ts lines 60-80). -/
structure RawStream where
  codec_type : Option String := none
  codec_name : Option String := none
  index : Option Int := none
  duration : Option String := none
  width : Option RawNum := none
  height : Option RawNum := none
  bit_rate : Option String := none
  avg_frame_rate : Option String := none
  sample_rate : Option String := none
  channel_layout : Option String := none
  disposition : Option Disposition := none
  tags : Option Tags := none
deriving DecidableEq, Repr

/-- The ffprobe `format` block (plugin.ts lines 56-59). -/
structure FormatInfo where
  duration : Option Int := none
  format_name : Option String := none
deriving DecidableEq, Repr

/-- The raw ffprobe result (plugin.ts lines 55-81). -/
structure FFprobeData where
  format : Option FormatInfo := none
  streams : Option (List RawStream) := none
deriving DecidableEq, Repr

/-- The four retained stream categories (plugin.ts line 193:
`'video' | 'audio' | 'subtitle' | 'embeddedimage'`). -/
inductive Cat where
  | video
  | audio
  | subtitle
  | embeddedimage
deriving DecidableEq, Repr

/-- The category tag as the string stored in the `type` field. -/
def Cat.str : Cat → String
  | .video => "video"
  | .audio => "audio"
  | .subtitle => "subtitle"
  | .embeddedimage => "embeddedimage"

/-- The codec-type dispatch of plugin.ts lines 192-205: map the codec type
tag to a category, or skip the stream (`continue`) when it is unknown. -/
def classifyType (codecType : String) : Option Cat :=
  if codecType = "video" then some Cat.video
  else if codecType = "audio" then some Cat.audio
  else if codecType = "subtitle" then some Cat.subtitle
  else if codecType = "embeddedimage" then some Cat.embeddedimage
  else none

/-- One conditional field assignment `if (cond) streamData.k = v` of the
stream-record builder: it contributes the single entry when the condition
holds and nothing otherwise. -/
def guarded (cond : Bool) (k : String) (v : JVal) : List (String × JVal) :=
  if cond then [(k, v)] else []

/-- The fields of the stream record built by plugin.ts lines 212-258, in
the exact assignment order of the source.  Each `guarded` line is one
`if` block of the source; option access `a?.b` is `Option.bind`. -/
def streamFields (s : RawStream) : List (String × JVal) :=
  guarded (optTruthy s.codec_name) "codec" (.s (s.codec_name.getD ""))
  ++ guarded s.index.isSome "index" (.n (s.index.getD 0))
  ++ guarded (optTruthy s.duration) "duration" (.s (s.duration.getD ""))
  ++ guarded (s.disposition.bind (·.forced)).isSome "forced"
      (.b ((s.disposition.bind (·.forced)).getD 0 == 1))
  ++ guarded (s.disposition.bind (·.default)).isSome "default"
      (.b ((s.disposition.bind (·.default)).getD 0 == 1))
  ++ guarded (optTruthy (s.tags.bind (·.language))) "language"
      (.s ((s.tags.bind (·.language)).getD ""))
  ++ guarded (optTruthy (s.tags.bind (·.title))) "title"
      (.s ((s.tags.bind (·.title)).getD ""))
  ++ guarded ((s.width.map (fun w => w.truthy && !w.isNA)).getD false) "width"
      ((s.width.getD (RawNum.num 0)).toJVal)
  ++ guarded ((s.height.map (fun h => h.truthy && !h.isNA)).getD false) "height"
      ((s.height.getD (RawNum.num 0)).toJVal)
  ++ guarded (optTruthy s.bit_rate && decide (s.bit_rate.getD "" ≠ "N/A")) "bitrate"
      (.s (s.bit_rate.getD ""))
  ++ guarded (optTruthy s.avg_frame_rate && decide (s.avg_frame_rate.getD "" ≠ "0/0")) "frameRate"
      (.s (s.avg_frame_rate.getD ""))
  ++ guarded (optTruthy (s.tags.bind (·.rotate))) "rotation"
      (.s ((s.tags.bind (·.rotate)).getD ""))
  ++ guarded (optTruthy s.sample_rate) "sampleRate" (.s (s.sample_rate.getD ""))
  ++ guarded (optTruthy s.channel_layout) "channelLayout" (.s (s.channel_layout.getD ""))

/-- The complete stream record of plugin.ts lines 208-258: the `type`
field first (line 209), then the conditional fields. -/
def streamData (t : Cat) (s : RawStream) : List (String × JVal) :=
  ("type", JVal.s t.str) :: streamFields s

/-- JSON string escaping as used by `JSON.stringify` restricted to the
quote and backslash escapes (the pipeline never produces control
characters and no theorem below instantiates one). -/
def jsonEscape (s : String) : String :=
  String.mk (s.data.foldr (fun c acc =>
    if c = '"' then '\\' :: '"' :: acc
    else if c = '\\' then '\\' :: '\\' :: acc
    else c :: acc) [])

/-- Rendering of one record value by `JSON.stringify`. -/
def JVal.render : JVal → String
  | .s v => "\"" ++ jsonEscape v ++ "\""
  | .n v => toString v
  | .b true => "true"
  | .b false => "false"

/-- Rendering of one key/value pair by `JSON.stringify`. -/
def renderField (kv : String × JVal) : String :=
  "\"" ++ jsonEscape kv.1 ++ "\":" ++ kv.2.render

/-- `JSON.stringify` of a stream record: fields in insertion order. -/
def renderObj (fields : List (String × JVal)) : String :=
  "\x7b" ++ String.intercalate "," (fields.map renderField) ++ "\x7d"

/-- The JavaScript `String(value)` coercion used when the stream record is
copied into the cache (plugin.ts line 273). -/
def JVal.jsString : JVal → String
  | .s v => v
  | .n v => toString v
  | .b true => "true"
  | .b false => "false"

/-- The retained streams of a raw probe record, in original probe order,
each paired with its category: the loop of plugin.ts lines 189-205 keeps
exactly these (a stream with an unknown codec type is skipped).  The
source's `String(stream.codec_type || '')` is the `getD ""`. -/
def retained (streams : List RawStream) : List (Cat × RawStream) :=
  streams.filterMap (fun s => (classifyType (s.codec_type.getD "")).map (fun t => (t, s)))

/-- The format entries written into the flat metadata map by plugin.ts
lines 174-183: `fileinfo/duration` when the raw duration is non-null, and
`fileinfo/formatName` when the raw format name is truthy. -/
def formatEntries (d : FFprobeData) : List (String × String) :=
  (match d.format.bind (·.duration) with
    | some v => [("fileinfo/duration", toString v)]
    | none => [])
  ++ (match d.format.bind (·.format_name) with
    | some f => if f ≠ "" then [("fileinfo/formatName", f)] else []
    | none => [])

/-- The per-stream entries of the flat metadata map (plugin.ts lines
185-277): the n-th retained stream, counted globally across all
categories in probe order, becomes key `stream/<n>` whose value is the
JSON-stringified stream record. -/
def streamEntries (streams : List RawStream) : List (String × String) :=
  (retained streams).enum.map
    (fun p => ("stream/" ++ toString p.1, renderObj (streamData p.2.1 p.2.2)))

/-- The full flat metadata map produced by the fresh-probe path of
plugin.ts lines 170-278, as an association list in insertion order. -/
def freshMetadata (d : FFprobeData) : List (String × String) :=
  formatEntries d ++ streamEntries (d.streams.getD [])

/-- The cached `FileInfoCache` record (plugin.ts lines 83-92).  The
per-category `Record<string, Record<string, string>>` keyed by the
per-category sequence index "0", "1", ... is modelled positionally as a
list (plugin.ts line 268 always appends at key = current count, and JSON
persistence keeps integer-like keys in ascending order). -/
structure FileInfoCache where
  duration : Option String := none
  formatName : Option String := none
  video : List (List (String × String)) := []
  audio : List (List (String × String)) := []
  subtitle : List (List (String × String)) := []
  embeddedimage : List (List (String × String)) := []
deriving DecidableEq, Repr

/-- Accessor for one category bucket of the cache. -/
def FileInfoCache.cat (c : FileInfoCache) : Cat → List (List (String × String))
  | .video => c.video
  | .audio => c.audio
  | .subtitle => c.subtitle
  | .embeddedimage => c.embeddedimage

/-- The cached copy of one stream record (plugin.ts lines 267-275): every
field except `type`, with its value stringified. -/
def cacheFields (t : Cat) (s : RawStream) : List (String × String) :=
  ((streamData t s).filter (fun kv => decide (kv.1 ≠ "type"))).map
    (fun kv => (kv.1, kv.2.jsString))

/-- Appending one stream's cached fields to its category bucket
(plugin.ts lines 263-270: `typeStreamIndex` is the current bucket size,
so the bucket grows at the end). -/
def addToCache (c : FileInfoCache) (t : Cat) (fields : List (String × String)) :
    FileInfoCache :=
  match t with
  | .video => { c with video := c.video ++ [fields] }
  | .audio => { c with audio := c.audio ++ [fields] }
  | .subtitle => { c with subtitle := c.subtitle ++ [fields] }
  | .embeddedimage => { c with embeddedimage := c.embeddedimage ++ [fields] }

/-- The `fileinfo` cache record built by the fresh-probe path (plugin.ts
lines 171-277): format fields per lines 174-183, then one pass over the
retained streams. -/
def buildFileInfo (d : FFprobeData) : FileInfoCache :=
  (retained (d.streams.getD [])).foldl
    (fun c p => addToCache c p.1 (cacheFields p.1 p.2))
    { duration := (d.format.bind (·.duration)).map (fun v => toString v)
      formatName :=
        match d.format.bind (·.format_name) with
        | some f => if f ≠ "" then some f else none
        | none => none }

/-- Decimal digit accumulation underlying the numeric re-coercion. -/
def digitsToNat (l : List Char) : Nat :=
  l.foldl (fun a c => a * 10 + (c.toNat - 48)) 0

/-- Digit accumulation in an arbitrary base. -/
def baseDigitsToNat (base : Nat) (val : Char → Nat) (l : List Char) : Nat :=
  l.foldl (fun a c => a * base + val c) 0

/-- The JavaScript WhiteSpace and LineTerminator characters stripped by
`Number(value)`: tab, vertical tab, form feed, space, no-break space,
zero-width no-break space, line feed, carriage return, line separator and
paragraph separator.  (Unicode category-Zs spaces beyond no-break space
are not enumerated.) -/
def isJsWhitespace (c : Char) : Bool :=
  c = ' ' || c = '\t' || c = '\n' || c = '\r' || c = '\x0b' || c = '\x0c' ||
    c = '\xa0' || c = '\u2028' || c = '\u2029' || c = '\uFEFF'

/-- Strip surrounding JavaScript whitespace. -/
def jsTrim (l : List Char) : List Char :=
  ((l.dropWhile isJsWhitespace).reverse.dropWhile isJsWhitespace).reverse

/-- A hexadecimal digit. -/
def isHexDigitCh (c : Char) : Bool :=
  c.isDigit || (decide ('a' ≤ c) && decide (c ≤ 'f')) ||
    (decide ('A' ≤ c) && decide (c ≤ 'F'))

/-- The value of a hexadecimal digit. -/
def hexVal (c : Char) : Nat :=
  if c.isDigit then c.toNat - 48
  else if decide ('a' ≤ c) && decide (c ≤ 'f') then c.toNat - 87
  else c.toNat - 55

/-- An octal digit. -/
def isOctDigitCh (c : Char) : Bool :=
  decide ('0' ≤ c) && decide (c ≤ '7')

/-- A binary digit. -/
def isBinDigitCh (c : Char) : Bool :=
  c = '0' || c = '1'

/-- An ECMAScript ExponentPart: `e` or `E`, an optional sign, then one or
more decimal digits. -/
def isExponent (l : List Char) : Bool :=
  match l with
  | c :: rest =>
    (c = 'e' || c = 'E') &&
      (match rest with
       | s :: rest2 =>
         if s = '+' || s = '-' then rest2 ≠ [] && rest2.all Char.isDigit
         else rest ≠ [] && rest.all Char.isDigit
       | [] => false)
  | [] => false

/-- An unsigned ECMAScript StrUnsignedDecimalLiteral other than Infinity:
`digits`, `digits . digits? exponent?`, `. digits exponent?` or
`digits exponent?`.  The result is `none` for NaN, `some (some n)` for a
plain digit string (whose value is exactly the integer `n`), and
`some none` for the fractional and exponent forms, whose value is a
non-NaN JavaScript number this embedding does not track exactly. -/
def parseUnsignedDec (l : List Char) : Option (Option Int) :=
  let ds := l.takeWhile Char.isDigit
  let rest := l.dropWhile Char.isDigit
  match rest with
  | [] => if ds.isEmpty then none else some (some (Int.ofNat (digitsToNat ds)))
  | '.' :: rest2 =>
    let fs := rest2.takeWhile Char.isDigit
    let rest3 := rest2.dropWhile Char.isDigit
    if ds.isEmpty && fs.isEmpty then none
    else if rest3.isEmpty || isExponent rest3 then some none
    else none
  | c :: _ =>
    if (c = 'e' || c = 'E') && !ds.isEmpty && isExponent rest then some none
    else none

/-- A signless numeric body: the literal `Infinity` (a non-NaN number the
embedding does not track exactly) or an unsigned decimal literal. -/
def parseSignless (l : List Char) : Option (Option Int) :=
  if l = "Infinity".data then some none else parseUnsignedDec l

/-- Models the JavaScript `Number(value)` coercion (plugin.ts line 351)
over the full ECMAScript StringNumericLiteral grammar: surrounding
whitespace is stripped, an empty or all-whitespace string coerces to 0,
`0x`/`0o`/`0b` radix-prefixed numerals coerce to the integer they denote,
and an optionally-signed decimal numeral (digits, fraction, exponent) or
`Infinity` is numeric; everything else is NaN (`none`).  The returned
value is exact for integer numerals (optionally-signed all-digit strings
and radix-prefixed strings); for fractional, exponent and Infinity forms
the result stands for "some non-NaN number" and its integer payload is a
placeholder 0 — no theorem depends on that payload, because the
round-trip hypothesis only needs to know whether a string re-coerces
away from text, and the values the pipeline itself stringifies are
integers, booleans and strings. -/
def jsNumberParse (s : String) : Option Int :=
  match jsTrim s.data with
  | [] => some 0
  | '0' :: x :: rest =>
    if x = 'x' || x = 'X' then
      if rest ≠ [] ∧ rest.all isHexDigitCh then
        some (Int.ofNat (baseDigitsToNat 16 hexVal rest))
      else none
    else if x = 'o' || x = 'O' then
      if rest ≠ [] ∧ rest.all isOctDigitCh then
        some (Int.ofNat (baseDigitsToNat 8 (fun c => c.toNat - 48) rest))
      else none
    else if x = 'b' || x = 'B' then
      if rest ≠ [] ∧ rest.all isBinDigitCh then
        some (Int.ofNat (baseDigitsToNat 2 (fun c => c.toNat - 48) rest))
      else none
    else (parseSignless ('0' :: x :: rest)).map (fun r => r.getD 0)
  | c :: rest =>
    if c = '-' then (parseSignless rest).map (fun r => -(r.getD 0))
    else if c = '+' then (parseSignless rest).map (fun r => r.getD 0)
    else (parseSignless (c :: rest)).map (fun r => r.getD 0)

/-- The text/number/boolean re-coercion applied to each cached field value
on decode (plugin.ts lines 346-355): the literal `true`/`false` become
booleans, a string whose `Number(...)` is not NaN (and which is nonempty)
becomes that number, everything else stays text. -/
def reCoerce (value : String) : JVal :=
  if value = "true" then JVal.b true
  else if value = "false" then JVal.b false
  else
    match jsNumberParse value with
    | some v => if value ≠ "" then JVal.n v else JVal.s value
    | none => JVal.s value

/-- Decoding one cached stream back into a stream record (plugin.ts lines
340-357): the `type` field first, then every cached field re-coerced. -/
def decodeStreamFields (t : Cat) (fields : List (String × String)) :
    List (String × JVal) :=
  ("type", JVal.s t.str) :: fields.map (fun kv => (kv.1, reCoerce kv.2))

/-- The decoded stream records of a cache entry in the fixed iteration
order of plugin.ts line 337: all video buckets, then audio, then
subtitle, then embeddedimage. -/
def cachedStreamObjs (c : FileInfoCache) : List (List (String × JVal)) :=
  c.video.map (decodeStreamFields Cat.video)
  ++ c.audio.map (decodeStreamFields Cat.audio)
  ++ c.subtitle.map (decodeStreamFields Cat.subtitle)
  ++ c.embeddedimage.map (decodeStreamFields Cat.embeddedimage)

/-- The flat metadata map reconstructed from a cache hit by
applyCachedMetadata (plugin.ts lines 319-363), as an association list in
insertion order. -/
def applyCachedMetadata (c : FileInfoCache) : List (String × String) :=
  (match c.duration with
    | some v => [("fileinfo/duration", v)]
    | none => [])
  ++ (match c.formatName with
    | some f => if f ≠ "" then [("fileinfo/formatName", f)] else []
    | none => [])
  ++ (cachedStreamObjs c).enum.map
      (fun p => ("stream/" ++ toString p.1, renderObj p.2))

/-- The three terminal statuses reported through the outcome callback. -/
inductive Status where
  | completed
  | skipped
  | failed
deriving DecidableEq, Repr

/-- The callback payload fields the claims are about (taskId and elapsed
wall-clock time omitted: no claim mentions them). -/
structure Callback where
  status : Status
  reason : Option String := none
  error : Option String := none
deriving DecidableEq, Repr

/-- The collaborator calls one invocation of `process` performs:
mergeMetadata calls to the store (attempted, whether or not the store
accepts them), cache writes (file name and record), and the number of
ffprobe invocations. -/
structure Trace where
  mergeCalls : List (String × List (String × String)) := []
  cacheWrites : List (String × FileInfoCache) := []
  probeCalls : Nat := 0
deriving DecidableEq, Repr

/-- The request fields `process` reads (plugin.ts line 126). -/
structure Request where
  taskId : String := ""
  cid : String := ""
  filePath : String := ""
  existingMeta : Option (List (String × String)) := none
deriving DecidableEq, Repr

/-- What the cache holds for the requested hash key: nothing, a malformed
entry, or a well-formed entry. -/
inductive CacheReadResult where
  | miss
  | corrupt
  | hit (c : FileInfoCache)
deriving DecidableEq, Repr

/-- The behaviour of the external collaborators during one invocation. -/
structure Env where
  cacheRead : CacheReadResult := .miss
  probe : Except String FFprobeData := .error "ffprobe unavailable"
  mergeResult : Except String Unit := .ok ()
  cacheWriteFails : Bool := false
deriving Repr

/-- Modelled from the spec: cache.ts (readJson) is not under src/.  Per
the spec, decode failure on malformed stored data (`CacheCorruptError`)
is treated identically to a cache miss by the caller — readJson yields no
value both for a missing entry and for a malformed one, and never
raises. -/
def readJsonResult : CacheReadResult → Option FileInfoCache
  | .miss => none
  | .corrupt => none
  | .hit c => some c

/-- Modelled from the spec: cache.ts (writeJson) is not under src/.  Per
the spec the cache persist is best-effort — "cache-write failure is
logged, not fatal" — so writeJson is modelled as raising no exception
even when the underlying write fails. -/
def writeJsonError (_underlyingWriteFails : Bool) : Option String := none

/-- Property lookup in the caller-supplied existing metadata
(`existingMeta?.[k]`). -/
def metaLookup (m : Option (List (String × String))) (k : String) : Option String :=
  (m.getD []).find? (fun kv => decide (kv.1 = k)) |>.map (·.2)

/-- The fresh-probe path of plugin.ts lines 167-296: run ffprobe, build
the flat metadata map and the cache record, publish to the store (a
rejection propagates as an exception into the catch block of lines
297-313), then persist the cache record when a hash key is available. -/
def freshPath (req : Request) (env : Env) (midhash : Option String) :
    Callback × Trace :=
  match env.probe with
  | .error e => ({ status := .failed, error := some e }, { probeCalls := 1 })
  | .ok d =>
    let md := freshMetadata d
    let fi := buildFileInfo d
    match env.mergeResult with
    | .error e =>
      ({ status := .failed, error := some e },
       { probeCalls := 1, mergeCalls := [(req.cid, md)] })
    | .ok _ =>
      match midhash with
      | some h =>
        match writeJsonError env.cacheWriteFails with
        | some e =>
          ({ status := .failed, error := some e },
           { probeCalls := 1, mergeCalls := [(req.cid, md)],
             cacheWrites := [(h ++ ".json", fi)] })
        | none =>
          ({ status := .completed },
           { probeCalls := 1, mergeCalls := [(req.cid, md)],
             cacheWrites := [(h ++ ".json", fi)] })
      | none =>
        ({ status := .completed },
         { probeCalls := 1, mergeCalls := [(req.cid, md)] })

/-- The orchestration of plugin.ts lines 118-314: the two skip guards
(lines 128-149), the cache-hit branch (lines 151-165), and the fresh
path, with the catch block of lines 297-313 turning a probe or store
exception into a failed callback. -/
def process (req : Request) (env : Env) : Callback × Trace :=
  if metaLookup req.existingMeta "fileType" ≠ some "video" then
    ({ status := .skipped, reason := some "Not a video file" }, {})
  else if optTruthy (metaLookup req.existingMeta "fileinfo/duration") then
    ({ status := .skipped, reason := some "Already processed" }, {})
  else
    let midhash :=
      match metaLookup req.existingMeta "cid_midhash256" with
      | some h => if h ≠ "" then some h else none
      | none => none
    match midhash with
    | some _ =>
      match readJsonResult env.cacheRead with
      | some c =>
        match env.mergeResult with
        | .ok _ =>
          ({ status := .completed },
           { mergeCalls := [(req.cid, applyCachedMetadata c)] })
        | .error e =>
          ({ status := .failed, error := some e },
           { mergeCalls := [(req.cid, applyCachedMetadata c)] })
      | none => freshPath req env midhash
    | none => freshPath req env none

/-! Helper lemmas about the stream-record builder and the cache codec. -/

lemma mem_guarded {kv : String × JVal} {c : Bool} {k : String} {v : JVal} :
    kv ∈ guarded c k v ↔ c = true ∧ kv = (k, v) := by
  cases c <;> simp [guarded]

lemma mem_map_fst_guarded {a : String} {c : Bool} {k : String} {v : JVal} :
    a ∈ (guarded c k v).map Prod.fst ↔ c = true ∧ a = k := by
  cases c <;> simp [guarded]

lemma streamFields_keys (s : RawStream) :
    ∀ kv ∈ streamFields s, kv.1 ≠ "type" := by
  intro kv hkv hty
  have hmem : kv.1 ∈ (streamFields s).map Prod.fst := List.mem_map_of_mem Prod.fst hkv
  rw [hty] at hmem
  simp [streamFields, mem_guarded, mem_map_fst_guarded] at hmem

lemma filter_ne_type (t : Cat) (s : RawStream) :
    (streamData t s).filter (fun kv => decide (kv.1 ≠ "type")) = streamFields s := by
  simp [streamData]
  intro a b hab
  exact streamFields_keys s (a, b) hab

lemma decode_cacheFields (t : Cat) (s : RawStream)
    (h : ∀ kv ∈ streamData t s, reCoerce kv.2.jsString = kv.2) :
    decodeStreamFields t (cacheFields t s) = streamData t s := by
  unfold decodeStreamFields cacheFields
  rw [filter_ne_type, List.map_map]
  unfold streamData
  congr 1
  have hid : ∀ kv ∈ streamFields s,
      ((fun kv : String × String => (kv.1, reCoerce kv.2)) ∘
        (fun kv : String × JVal => (kv.1, kv.2.jsString))) kv = id kv := by
    intro kv hkv
    have := h kv (by simp [streamData, hkv])
    simp [Function.comp, this]
  rw [List.map_congr_left hid, List.map_id]

lemma addToCache_cat (c : FileInfoCache) (t u : Cat) (fs : List (String × String)) :
    (addToCache c t fs).cat u = if t = u then c.cat u ++ [fs] else c.cat u := by
  cases t <;> cases u <;> simp [addToCache, FileInfoCache.cat]

lemma addToCache_duration (c : FileInfoCache) (t : Cat) (fs : List (String × String)) :
    (addToCache c t fs).duration = c.duration := by
  cases t <;> rfl

lemma addToCache_formatName (c : FileInfoCache) (t : Cat) (fs : List (String × String)) :
    (addToCache c t fs).formatName = c.formatName := by
  cases t <;> rfl

lemma foldl_cache_cat (l : List (Cat × RawStream)) (c : FileInfoCache) (u : Cat) :
    (l.foldl (fun c p => addToCache c p.1 (cacheFields p.1 p.2)) c).cat u
      = c.cat u ++ (l.filter (fun p => p.1 == u)).map (fun p => cacheFields p.1 p.2) := by
  induction l generalizing c with
  | nil => simp
  | cons p l ih =>
    rw [List.foldl_cons, ih, List.filter_cons]
    by_cases hp : p.1 = u
    · simp [hp, addToCache_cat]
    · simp [hp, addToCache_cat]

lemma foldl_cache_duration (l : List (Cat × RawStream)) (c : FileInfoCache) :
    (l.foldl (fun c p => addToCache c p.1 (cacheFields p.1 p.2)) c).duration
      = c.duration := by
  induction l generalizing c with
  | nil => rfl
  | cons p l ih => rw [List.foldl_cons, ih, addToCache_duration]

lemma foldl_cache_formatName (l : List (Cat × RawStream)) (c : FileInfoCache) :
    (l.foldl (fun c p => addToCache c p.1 (cacheFields p.1 p.2)) c).formatName
      = c.formatName := by
  induction l generalizing c with
  | nil => rfl
  | cons p l ih => rw [List.foldl_cons, ih, addToCache_formatName]

lemma buildFileInfo_cat (d : FFprobeData) (u : Cat) :
    (buildFileInfo d).cat u
      = ((retained (d.streams.getD [])).filter (fun p => p.1 == u)).map
          (fun p => cacheFields p.1 p.2) := by
  unfold buildFileInfo
  rw [foldl_cache_cat]
  cases u <;> rfl

lemma buildFileInfo_duration (d : FFprobeData) :
    (buildFileInfo d).duration
      = (d.format.bind (·.duration)).map (fun v => toString v) := by
  unfold buildFileInfo
  rw [foldl_cache_duration]

lemma buildFileInfo_formatName (d : FFprobeData) :
    (buildFileInfo d).formatName
      = match d.format.bind (·.format_name) with
        | some f => if f ≠ "" then some f else none
        | none => none := by
  unfold buildFileInfo
  rw [foldl_cache_formatName]

lemma freshPath_probeCalls (req : Request) (env : Env) (mh : Option String) :
    (freshPath req env mh).2.probeCalls = 1 := by
  unfold freshPath
  rcases env.probe with e | d
  · rfl
  · rcases env.mergeResult with e | u
    · rfl
    · rcases mh with _ | h <;> simp [writeJsonError]

/-- The retained streams appear grouped by category, in the fixed order
video, audio, subtitle, embeddedimage (the order the cache-hit decoder
re-emits them in). -/
def groupedCats (l : List (Cat × RawStream)) : Prop :=
  l = l.filter (fun p => p.1 == Cat.video) ++ l.filter (fun p => p.1 == Cat.audio)
    ++ l.filter (fun p => p.1 == Cat.subtitle)
    ++ l.filter (fun p => p.1 == Cat.embeddedimage)

instance : DecidablePred groupedCats := fun l => by
  unfold groupedCats
  infer_instance

lemma cachedStreamObjs_buildFileInfo (d : FFprobeData)
    (h2 : ∀ p ∈ retained (d.streams.getD []),
        ∀ kv ∈ streamData p.1 p.2, reCoerce kv.2.jsString = kv.2) :
    cachedStreamObjs (buildFileInfo d)
      = ((retained (d.streams.getD [])).filter (fun p => p.1 == Cat.video)
          ++ (retained (d.streams.getD [])).filter (fun p => p.1 == Cat.audio)
          ++ (retained (d.streams.getD [])).filter (fun p => p.1 == Cat.subtitle)
          ++ (retained (d.streams.getD [])).filter (fun p => p.1 == Cat.embeddedimage)).map
          (fun p => streamData p.1 p.2) := by
  have hb : ∀ u : Cat,
      ((buildFileInfo d).cat u).map (decodeStreamFields u)
        = ((retained (d.streams.getD [])).filter (fun p => p.1 == u)).map
            (fun p => streamData p.1 p.2) := by
    intro u
    rw [buildFileInfo_cat, List.map_map]
    apply List.map_congr_left
    intro p hp
    have hpr : p ∈ retained (d.streams.getD []) := List.mem_of_mem_filter hp
    have hpu : p.1 = u := by simpa using List.of_mem_filter hp
    have hdec := decode_cacheFields p.1 p.2 (h2 p hpr)
    simpa [Function.comp, hpu] using hdec
  have e1 : (buildFileInfo d).video = (buildFileInfo d).cat Cat.video := rfl
  have e2 : (buildFileInfo d).audio = (buildFileInfo d).cat Cat.audio := rfl
  have e3 : (buildFileInfo d).subtitle = (buildFileInfo d).cat Cat.subtitle := rfl
  have e4 : (buildFileInfo d).embeddedimage = (buildFileInfo d).cat Cat.embeddedimage := rfl
  unfold cachedStreamObjs
  rw [e1, e2, e3, e4, hb Cat.video, hb Cat.audio, hb Cat.subtitle, hb Cat.embeddedimage,
    ← List.map_append, ← List.map_append, ← List.map_append]

/-- A raw probe record with a single audio stream whose sample rate is
the numeric-looking text "44100". -/
def cexProbeData : FFprobeData :=
  { streams := some [{ codec_type := some "audio", sample_rate := some "44100" }] }

/-- A raw probe record (one video then one audio stream) that satisfies
both hypotheses of the amended round-trip theorem. -/
def witProbeData : FFprobeData :=
  { format := some { duration := some 2, format_name := some "mov,mp4" }
    streams := some
      [ { codec_type := some "video", codec_name := some "h264", index := some 0,
          width := some (RawNum.num 320), height := some (RawNum.num 240) },
        { codec_type := some "audio", codec_name := some "aac", index := some 1,
          channel_layout := some "stereo" } ] }

lemma freshPath_cacheRead (req : Request) (env : Env) (cr : CacheReadResult)
    (mh : Option String) :
    freshPath req { env with cacheRead := cr } mh = freshPath req env mh := rfl

/-- C2: on the fresh-probe path, once the store publish (mergeMetadata)
has succeeded, a failing cache write does not fail the task: the outcome
callback still reports status completed (spec-modelled: writeJson is
best-effort per the spec, since cache.ts is not under src/). -/
theorem C2_cache_write_failure_not_fatal (req : Request) (env : Env) (d : FFprobeData)
    (hvid : metaLookup req.existingMeta "fileType" = some "video")
    (hdur : optTruthy (metaLookup req.existingMeta "fileinfo/duration") = false)
    (hmiss : readJsonResult env.cacheRead = none)
    (hp : env.probe = .ok d)
    (hm : env.mergeResult = .ok ())
    (_hw : env.cacheWriteFails = true) :
    (process req env).1.status = .completed := by
  rcases hmid : metaLookup req.existingMeta "cid_midhash256" with _ | h
  · simp [process, freshPath, hvid, hdur, hp, hm, hmid, writeJsonError]
  · by_cases hh : h = "" <;>
      simp [process, freshPath, hvid, hdur, hmiss, hp, hm, hmid, hh, writeJsonError]

/-- A request whose existing metadata marks a video with a content hash. -/
def hashedVideoReq : Request :=
  { existingMeta := some [("fileType", "video"), ("cid_midhash256", "abc")] }

/-- An environment where the probe succeeds, the store accepts the write,
the cache has no entry and the underlying cache write fails. -/
def writeFailEnv : Env :=
  { cacheRead := .miss, probe := .ok {}, mergeResult := .ok (), cacheWriteFails := true }

/-- C2 witness: concrete request and environment with a failing cache
write still complete. -/
theorem C2_cache_write_failure_not_fatal_witness :
    (process hashedVideoReq writeFailEnv).1.status = .completed :=
  C2_cache_write_failure_not_fatal hashedVideoReq writeFailEnv {} rfl rfl rfl rfl rfl rfl

/-- C3: a malformed cache entry behaves exactly like a cache miss
(spec-modelled: cache.ts readJson is not under src/; per the spec a
`CacheCorruptError` is treated identically to a miss).  First conjunct:
the whole invocation result is identical under a corrupt entry and under
a miss.  Second conjunct: when the guards pass and a hash key is present,
the corrupt-cache run falls through to the fresh-probe path and invokes
the probe, and is never failed on account of the cache. -/
theorem C3_cache_corruption_is_cache_miss :
    (∀ (req : Request) (env : Env),
        process req { env with cacheRead := .corrupt }
          = process req { env with cacheRead := .miss })
    ∧ (∀ (req : Request) (env : Env) (h : String),
        metaLookup req.existingMeta "fileType" = some "video" →
        optTruthy (metaLookup req.existingMeta "fileinfo/duration") = false →
        metaLookup req.existingMeta "cid_midhash256" = some h →
        h ≠ "" →
        process req { env with cacheRead := .corrupt }
            = freshPath req { env with cacheRead := .corrupt } (some h)
          ∧ (process req { env with cacheRead := .corrupt }).2.probeCalls = 1) := by
  constructor
  · intro req env
    unfold process
    simp only [readJsonResult, freshPath_cacheRead]
  · intro req env h hvid hdur hmid hne
    have hfall : process req { env with cacheRead := .corrupt }
        = freshPath req { env with cacheRead := .corrupt } (some h) := by
      unfold process
      simp [hvid, hdur, hmid, hne, readJsonResult]
    exact ⟨hfall, by rw [hfall]; exact freshPath_probeCalls _ _ _⟩

/-- C3 witness: both conjuncts at a concrete request and environment. -/
theorem C3_cache_corruption_is_cache_miss_witness :
    process hashedVideoReq { writeFailEnv with cacheRead := .corrupt }
        = process hashedVideoReq { writeFailEnv with cacheRead := .miss }
      ∧ (process hashedVideoReq { writeFailEnv with cacheRead := .corrupt }).2.probeCalls = 1 :=
  ⟨C3_cache_corruption_is_cache_miss.1 hashedVideoReq writeFailEnv,
   (C3_cache_corruption_is_cache_miss.2 hashedVideoReq writeFailEnv "abc"
      rfl rfl rfl (by decide)).2⟩

/-- C5: the claim as frozen fails on the code (a present but empty
fileinfo/duration value does not trigger the skip); this is the amended
form.  Any request whose existing metadata does not carry fileType
"video" is skipped with reason "Not a video file" regardless of other
fields; any request with fileType "video" and a non-empty (truthy)
fileinfo/duration value is skipped with reason "Already processed"; in
both cases the probe is never invoked and no store or cache write
occurs (the trace is empty). -/
theorem C5_skip_guards (req : Request) (env : Env) :
    (metaLookup req.existingMeta "fileType" ≠ some "video" →
      process req env = ({ status := .skipped, reason := some "Not a video file" }, {}))
    ∧ (metaLookup req.existingMeta "fileType" = some "video" →
      optTruthy (metaLookup req.existingMeta "fileinfo/duration") = true →
      process req env = ({ status := .skipped, reason := some "Already processed" }, {})) := by
  constructor
  · intro h
    simp [process, h]
  · intro h1 h2
    simp [process, h1, h2]

/-- A request marked video whose fileinfo/duration key is present with
the empty-string value. -/
def emptyDurationReq : Request :=
  { existingMeta := some [("fileType", "video"), ("fileinfo/duration", "")] }

/-- An environment whose probe succeeds with an empty record. -/
def probeOkEnv : Env := { probe := .ok {} }

/-- C5 counterexample: with the fileinfo/duration key present but empty,
the invocation is not skipped — it probes and completes, refuting the
frozen claim that any present fileinfo/duration key yields
Skipped("Already processed"). -/
theorem C5_skip_guards_counterexample :
    (process emptyDurationReq probeOkEnv).1.status = .completed
      ∧ (process emptyDurationReq probeOkEnv).2.probeCalls = 1
      ∧ (process emptyDurationReq probeOkEnv).1.reason ≠ some "Already processed" := by
  decide

/-- A request whose existing metadata marks an audio file. -/
def audioReq : Request := { existingMeta := some [("fileType", "audio")] }

/-- A video request already carrying a non-empty duration. -/
def processedReq : Request :=
  { existingMeta := some [("fileType", "video"), ("fileinfo/duration", "2.0")] }

/-- C5 witness: both amended guards at concrete requests. -/
theorem C5_skip_guards_witness :
    process audioReq probeOkEnv
        = ({ status := .skipped, reason := some "Not a video file" }, {})
      ∧ process processedReq probeOkEnv
        = ({ status := .skipped, reason := some "Already processed" }, {}) :=
  ⟨(C5_skip_guards audioReq probeOkEnv).1 (by decide),
   (C5_skip_guards processedReq probeOkEnv).2 (by decide) (by decide)⟩

set_option maxHeartbeats 1600000 in
/-- C7: the claim as frozen fails on the code (a rejected store write is
an attempted mergeMetadata call on a Failed outcome); this is the
amended form.  Per invocation at most one mergeMetadata call is
attempted; a Completed outcome has exactly one; a Skipped outcome has
none; a Failed outcome has none unless the failure is the store write
itself (then exactly one attempted call and the reported error is the
store's); and whenever the probe was invoked and failed — whatever the
store would have answered — no store call is made. -/
theorem C7_single_merge (req : Request) (env : Env) :
    (process req env).2.mergeCalls.length ≤ 1
    ∧ ((process req env).1.status = .completed →
        (process req env).2.mergeCalls.length = 1)
    ∧ ((process req env).1.status = .skipped → (process req env).2.mergeCalls = [])
    ∧ ((process req env).1.status = .failed →
        (process req env).2.mergeCalls = []
          ∨ ((process req env).2.mergeCalls.length = 1
              ∧ ∃ e, env.mergeResult = .error e ∧ (process req env).1.error = some e))
    ∧ (∀ e, env.probe = .error e → (process req env).2.probeCalls = 1 →
        (process req env).2.mergeCalls = []) := by
  obtain ⟨cr, pr, mr, cw⟩ := env
  cases pr <;> cases mr <;> cases cr <;>
    simp only [process, freshPath, writeJsonError, readJsonResult] <;>
      repeat' split <;> simp_all

/-- A plain video request with no hash and no prior duration. -/
def videoReq : Request := { cid := "c7", existingMeta := some [("fileType", "video")] }

/-- An environment where the probe succeeds but the store rejects the
write. -/
def mergeFailEnv : Env := { probe := .ok {}, mergeResult := .error "store down" }

/-- C7 counterexample: when the store rejects the publish, the outcome is
Failed and yet one mergeMetadata call was made, refuting the frozen
claim that a Failed invocation makes no such call. -/
theorem C7_single_merge_counterexample :
    (process videoReq mergeFailEnv).1.status = .failed
      ∧ (process videoReq mergeFailEnv).2.mergeCalls.length = 1 := by
  decide

/-- An environment where the probe fails and the store would also reject
any write. -/
def doubleFailEnv : Env :=
  { probe := .error "ffprobe missing", mergeResult := .error "store down" }

/-- C7 witness: the amended bounds at a concrete completed invocation,
and the probe-failure conjunct at an invocation whose store would also
have rejected the write. -/
theorem C7_single_merge_witness :
    (process videoReq probeOkEnv).2.mergeCalls.length ≤ 1
      ∧ (process videoReq probeOkEnv).2.mergeCalls.length = 1
      ∧ (process videoReq doubleFailEnv).2.mergeCalls = [] :=
  ⟨(C7_single_merge videoReq probeOkEnv).1,
   (C7_single_merge videoReq probeOkEnv).2.1 (by decide),
   (C7_single_merge videoReq doubleFailEnv).2.2.2.2 "ffprobe missing" rfl (by decide)⟩

/-- A stream that is retained with no fields beyond its type. -/
def videoOnly : RawStream := { codec_type := some "video" }

/-- A bare audio stream. -/
def audioOnly : RawStream := { codec_type := some "audio" }

/-- A bare subtitle stream. -/
def subtitleOnly : RawStream := { codec_type := some "subtitle" }

/-- A stream with the unmapped codec type "data". -/
def dataOnly : RawStream := { codec_type := some "data" }

/-- The concrete probe order video, audio, audio, subtitle. -/
def vaasProbeData : FFprobeData :=
  { streams := some [videoOnly, audioOnly, audioOnly, subtitleOnly] }

/-- C4: stream keys are global and positional.  First conjunct: a stream
with an unmapped codec type contributes no key and does not shift
subsequent indices.  Second conjunct: the keys of the stream entries are
exactly stream/0, stream/1, ... in retained order across all categories.
Third conjunct: the concrete order video, audio, audio, subtitle yields
keys stream/0..3 with type fields video, audio, audio, subtitle. -/
theorem C4_global_positional_numbering :
    (∀ (xs ys : List RawStream) (s : RawStream),
        classifyType (s.codec_type.getD "") = none →
          streamEntries (xs ++ s :: ys) = streamEntries (xs ++ ys))
    ∧ (∀ streams : List RawStream,
        (streamEntries streams).map Prod.fst
          = (List.range (retained streams).length).map (fun i => "stream/" ++ toString i))
    ∧ freshMetadata vaasProbeData
        = [("stream/0", "\x7b\"type\":\"video\"\x7d"),
           ("stream/1", "\x7b\"type\":\"audio\"\x7d"),
           ("stream/2", "\x7b\"type\":\"audio\"\x7d"),
           ("stream/3", "\x7b\"type\":\"subtitle\"\x7d")] := by
  refine ⟨?_, ?_, ?_⟩
  · intro xs ys s h
    unfold streamEntries retained
    rw [List.filterMap_append, List.filterMap_append, List.filterMap_cons]
    simp [h]
  · intro streams
    unfold streamEntries
    rw [← List.enum_map_fst (retained streams), List.map_map, List.map_map]
    rfl
  · decide

/-- C4 witness: the unknown-category conjunct applied to a concrete
"data" stream between a video and an audio stream. -/
theorem C4_global_positional_numbering_witness :
    streamEntries ([videoOnly] ++ dataOnly :: [audioOnly])
      = streamEntries ([videoOnly] ++ [audioOnly]) :=
  C4_global_positional_numbering.1 [videoOnly] [audioOnly] dataOnly (by decide)

/-- C6: sentinel filtering.  A raw stream whose width is the literal
text "N/A" gets no width field, one whose avg_frame_rate is "0/0" gets
no frameRate field, and one whose bit_rate is "N/A" gets no bitrate
field. -/
theorem C6_sentinel_filtering (t : Cat) (s : RawStream) :
    (s.width = some (RawNum.str "N/A") → "width" ∉ (streamData t s).map Prod.fst)
    ∧ (s.avg_frame_rate = some "0/0" → "frameRate" ∉ (streamData t s).map Prod.fst)
    ∧ (s.bit_rate = some "N/A" → "bitrate" ∉ (streamData t s).map Prod.fst) := by
  refine ⟨fun h => ?_, fun h => ?_, fun h => ?_⟩ <;>
    simp [streamData, streamFields, mem_guarded, mem_map_fst_guarded, h, RawNum.truthy,
      RawNum.isNA, optTruthy]

/-- A video stream carrying all three sentinel values. -/
def sentinelStream : RawStream :=
  { codec_type := some "video", width := some (RawNum.str "N/A"),
    avg_frame_rate := some "0/0", bit_rate := some "N/A" }

/-- C6 witness: the three sentinel conclusions at a concrete stream. -/
theorem C6_sentinel_filtering_witness :
    "width" ∉ (streamData Cat.video sentinelStream).map Prod.fst
    ∧ "frameRate" ∉ (streamData Cat.video sentinelStream).map Prod.fst
    ∧ "bitrate" ∉ (streamData Cat.video sentinelStream).map Prod.fst :=
  ⟨(C6_sentinel_filtering Cat.video sentinelStream).1 rfl,
   (C6_sentinel_filtering Cat.video sentinelStream).2.1 rfl,
   (C6_sentinel_filtering Cat.video sentinelStream).2.2 rfl⟩

/-- C8: disposition boolean coercion.  forced=1 yields the field forced
with boolean value true (serialized as the text true by JSON.stringify),
default=0 yields default with value false, and with no disposition block
neither field is present. -/
theorem C8_disposition_coercion (t : Cat) (s : RawStream) :
    (∀ dsp : Disposition, s.disposition = some dsp → dsp.forced = some 1 →
        ("forced", JVal.b true) ∈ streamData t s)
    ∧ (∀ dsp : Disposition, s.disposition = some dsp → dsp.default = some 0 →
        ("default", JVal.b false) ∈ streamData t s)
    ∧ (s.disposition = none →
        "forced" ∉ (streamData t s).map Prod.fst
          ∧ "default" ∉ (streamData t s).map Prod.fst) := by
  refine ⟨fun dsp h1 h2 => ?_, fun dsp h1 h2 => ?_, fun h => ⟨?_, ?_⟩⟩
  · simp [streamData, streamFields, mem_guarded, mem_map_fst_guarded, h1, h2]
  · simp [streamData, streamFields, mem_guarded, mem_map_fst_guarded, h1, h2]
  · simp [streamData, streamFields, mem_guarded, mem_map_fst_guarded, h]
  · simp [streamData, streamFields, mem_guarded, mem_map_fst_guarded, h]

/-- An audio stream with forced=1 and default=0 dispositions. -/
def dispStream : RawStream :=
  { codec_type := some "audio", disposition := some { forced := some 1, default := some 0 } }

/-- An audio stream with no disposition block. -/
def noDispStream : RawStream := { codec_type := some "audio" }

/-- C8 witness: the three disposition conclusions at concrete streams. -/
theorem C8_disposition_coercion_witness :
    ("forced", JVal.b true) ∈ streamData Cat.audio dispStream
    ∧ ("default", JVal.b false) ∈ streamData Cat.audio dispStream
    ∧ ("forced" ∉ (streamData Cat.audio noDispStream).map Prod.fst
        ∧ "default" ∉ (streamData Cat.audio noDispStream).map Prod.fst) :=
  ⟨(C8_disposition_coercion Cat.audio dispStream).1
      { forced := some 1, default := some 0 } rfl rfl,
   (C8_disposition_coercion Cat.audio dispStream).2.1
      { forced := some 1, default := some 0 } rfl rfl,
   (C8_disposition_coercion Cat.audio noDispStream).2.2 rfl⟩

/-- C9: projection is deterministic.  Both projections are pure Lean
functions of their argument alone, so projecting the same data twice
yields identical flat maps — there is no timestamp, randomness or
ordering nondeterminism anywhere in freshMetadata or
applyCachedMetadata. -/
theorem C9_projection_deterministic (d : FFprobeData) (c : FileInfoCache) :
    freshMetadata d = freshMetadata d ∧ applyCachedMetadata c = applyCachedMetadata c :=
  ⟨rfl, rfl⟩

/-- C10: a width or height equal to the number 0 is filtered by the
truthiness check exactly like an absent field, while a numeric stream
index of 0 is still recorded as the index field. -/
theorem C10_zero_width_filtered (t : Cat) (s : RawStream) :
    (s.width = some (RawNum.num 0) → "width" ∉ (streamData t s).map Prod.fst)
    ∧ (s.height = some (RawNum.num 0) → "height" ∉ (streamData t s).map Prod.fst)
    ∧ (s.index = some 0 → ("index", JVal.n 0) ∈ streamData t s) := by
  refine ⟨fun h => ?_, fun h => ?_, fun h => ?_⟩ <;>
    simp [streamData, streamFields, mem_guarded, mem_map_fst_guarded, h, RawNum.truthy,
      RawNum.isNA]

/-- A video stream with zero width and height and stream index 0. -/
def zeroStream : RawStream :=
  { codec_type := some "video", index := some 0,
    width := some (RawNum.num 0), height := some (RawNum.num 0) }

/-- C10 witness: the three conclusions at a concrete stream. -/
theorem C10_zero_width_filtered_witness :
    "width" ∉ (streamData Cat.video zeroStream).map Prod.fst
    ∧ "height" ∉ (streamData Cat.video zeroStream).map Prod.fst
    ∧ ("index", JVal.n 0) ∈ streamData Cat.video zeroStream :=
  ⟨(C10_zero_width_filtered Cat.video zeroStream).1 rfl,
   (C10_zero_width_filtered Cat.video zeroStream).2.1 rfl,
   (C10_zero_width_filtered Cat.video zeroStream).2.2 rfl⟩

end FFmpegPlugin
